import Mathlib

set_option maxRecDepth 8000

/-!
Verification development for the fetch_analysis repository.

The embedding below translates the schema-inference engine
(`assets/dw_modeler.py`: `DataWarehouseModeler`) and the load-time
referential-integrity ledger (`assets/data_ingestor.py`:
`DatabaseIngester`) into executable Lean definitions, and proves or
refutes the frozen claims about them.

Python values are modelled by the inductive `PyVal`; Python `dict`s are
association lists in insertion order (Python 3.7+ dicts preserve
insertion order); Python `set`s are modelled as duplicate-free lists in
insertion order (Python set iteration order is arbitrary, so every
theorem that depends on set iteration order is stated for an arbitrary
list).  Timestamps are modelled as natural numbers supplied by the
caller (the source reads `CURRENT_TIMESTAMP` / `datetime`).
-/

/-- Model of a Python value as it appears in the parsed JSON documents
and in the ingestion code.  `float` carries an opaque integer
representation (no claim inspects a float's numeric value);
`timestamp` models a `datetime` object produced by
`process_timestamp`, carrying its epoch value. -/
inductive PyVal where
  | none : PyVal
  | bool : Bool → PyVal
  | int : Int → PyVal
  | float : Int → PyVal
  | str : String → PyVal
  | list : List PyVal → PyVal
  | dict : List (String × PyVal) → PyVal
  | timestamp : Int → PyVal

mutual

/-- Boolean equality on modelled Python values. -/
def pyBeq : PyVal → PyVal → Bool
  | .none, .none => true
  | .bool a, .bool b => a == b
  | .int a, .int b => a == b
  | .float a, .float b => a == b
  | .str a, .str b => a == b
  | .list a, .list b => pyListBeq a b
  | .dict a, .dict b => pyDictBeq a b
  | .timestamp a, .timestamp b => a == b
  | _, _ => false

/-- Boolean equality on lists of modelled Python values. -/
def pyListBeq : List PyVal → List PyVal → Bool
  | [], [] => true
  | a :: as, b :: bs => pyBeq a b && pyListBeq as bs
  | _, _ => false

/-- Boolean equality on modelled Python dicts. -/
def pyDictBeq : List (String × PyVal) → List (String × PyVal) → Bool
  | [], [] => true
  | (k1, v1) :: as, (k2, v2) :: bs => k1 == k2 && pyBeq v1 v2 && pyDictBeq as bs
  | _, _ => false

end

/-- Python truthiness (`if value:`): `None`, `False`, zero and the empty
string/list/dict are falsy. `datetime` objects are always truthy. -/
def pyTruthy : PyVal → Bool
  | .none => false
  | .bool b => b
  | .int n => n ≠ 0
  | .float n => n ≠ 0
  | .str s => s ≠ ""
  | .list l => !l.isEmpty
  | .dict d => !d.isEmpty
  | .timestamp _ => true

/-- Membership test for a key in a modelled Python dict (`'$date' in value`). -/
def hasKey (fields : List (String × PyVal)) (k : String) : Bool :=
  fields.any (fun kv => kv.1 == k)

/-- `d.get(k)` on a modelled Python dict: the first binding wins (keys of a
real dict are unique), `None` when absent. -/
def dictGet (fields : List (String × PyVal)) (k : String) : PyVal :=
  match fields with
  | [] => .none
  | (k2, v) :: rest => if k2 = k then v else dictGet rest k

/-- `value.get(k)` where `value` is a `PyVal`; the source only calls `.get`
on dict values. -/
def pyGet (v : PyVal) (k : String) : PyVal :=
  match v with
  | .dict fields => dictGet fields k
  | _ => .none

/-- `value.get(k, [])` unwrapped to the list to iterate over
(`receipt.get('rewardsReceiptItemList', [])`): absent or non-list values
yield no iterations. -/
def pyGetList (v : PyVal) (k : String) : List PyVal :=
  match pyGet v k with
  | .list l => l
  | _ => []

/-- `a.isPrefixOf b` on character lists, written out so the development is
self-contained. -/
def chrsLe : List Char → List Char → Bool
  | [], _ => true
  | _ :: _, [] => false
  | a :: as, b :: bs => a == b && chrsLe as bs

/-- Auxiliary scan for substring containment. -/
def chrsContains (pat : List Char) : List Char → Bool
  | [] => chrsLe pat []
  | c :: rest => chrsLe pat (c :: rest) || chrsContains pat rest

/-- Python `pat in s` on strings: substring containment. -/
def strContains (s pat : String) : Bool :=
  chrsContains pat.data s.data

/-- Number of (possibly overlapping) occurrences of a pattern in a
character list. -/
def chrsCount (pat : List Char) : List Char → Nat
  | [] => if chrsLe pat [] then 1 else 0
  | c :: rest => (if chrsLe pat (c :: rest) then 1 else 0) + chrsCount pat rest

/-- Number of occurrences of a (nonempty) pattern in a string. -/
def strCount (s pat : String) : Nat :=
  chrsCount pat.data s.data

/-- Python `s.lower()` (the source's names are ASCII, where
`Char.toLower` agrees with `str.lower`). -/
def pyLower (s : String) : String :=
  ⟨s.data.map Char.toLower⟩

/-- Python `s.replace(old, new)` instantiated at the single-character
patterns the source uses (`'$'`→`''` and `'.'`→`'_'`): each occurrence of
`old` is replaced by the characters `new`. -/
def replaceChar (s : String) (old : Char) (new : List Char) : String :=
  ⟨s.data.flatMap (fun c => if c = old then new else [c])⟩

/-- Python `s.split('.')[0]`: the characters before the first dot. -/
def splitDotHead (s : String) : String :=
  ⟨s.data.takeWhile (fun c => c ≠ '.')⟩

/-- Python `sep.join(l)`. -/
def joinSep (sep : String) : List String → String
  | [] => ""
  | x :: xs => xs.foldl (fun a b => a ++ sep ++ b) x

/-- `DataWarehouseModeler.clean_column_name`:
`name.replace('$', '').replace('.', '_').lower()`. -/
def clean_column_name (name : String) : String :=
  pyLower (replaceChar (replaceChar name '$' []) '.' ['_'])

/-- Modelled from the spec (for comparison only): the spec's words say the
cleaned name is the raw name "lower-cased, `$` and `.` stripped", i.e.
both characters removed. -/
def specCleanColumnName (name : String) : String :=
  pyLower (replaceChar (replaceChar name '$' []) '.' [])

/-- `DataWarehouseModeler.infer_data_type`.  The `type_mapping` lookup of
the source (`str`/`int`/`float`/`bool`/`None`/`dict`/`list`) is folded
into the match: a dict without a `$date`/`$oid` marker falls through the
string checks to `type_mapping[dict] = "NESTED"`, and every branch below
mirrors one branch of the source. -/
def infer_data_type (value : PyVal) (column_name : String) : String :=
  match value with
  | .none => "NULL"
  | .dict fields =>
      if hasKey fields "$date" then "TIMESTAMP"
      else if hasKey fields "$oid" then "VARCHAR(24)"
      else "NESTED"
  | .str s =>
      if strContains (pyLower column_name) "date" then "TIMESTAMP"
      else if strContains (pyLower column_name) "price"
            || strContains (pyLower column_name) "spent" then "DECIMAL(10,2)"
      else if s.length > 255 then "TEXT" else "VARCHAR(255)"
  | .int _ => "INTEGER"
  | .float _ => "DECIMAL(10,2)"
  | .bool _ => "BOOLEAN"
  | .list _ => "ARRAY"
  | .timestamp _ => "VARCHAR(255)"

/-! ## The analysis model (`structure["tables"]`)

`analyze_structure` builds `{"tables": defaultdict(lambda: {"columns":
defaultdict(set), "relationships": set()})}`.  Tables and columns are
modelled as association lists in insertion order (Python dicts preserve
insertion order); each column's observed type collection and each
table's relationship collection is a Python `set`, modelled as a
duplicate-free list (membership added once). -/

/-- A column's observed type classifications (a Python `set` of type
strings). -/
abbrev TypeSet := List String

/-- One table of the inferred model: column → type-set mapping plus the
set of relationship descriptors. -/
structure TableInfo where
  columns : List (String × TypeSet)
  relationships : List String
deriving DecidableEq, Repr

/-- The accumulated model: table name → table info, in insertion order. -/
abbrev DWStructure := List (String × TableInfo)

/-- Lookup in an association list keyed by strings. -/
def alGet {α : Type} : List (String × α) → String → Option α
  | [], _ => Option.none
  | (k2, v) :: rest, k => if k2 = k then some v else alGet rest k

/-- Assignment `d[k] = v` on an insertion-ordered dict: update in place,
or append when the key is new. -/
def alSet {α : Type} : List (String × α) → String → α → List (String × α)
  | [], k, v => [(k, v)]
  | (k2, v2) :: rest, k, v =>
      if k2 = k then (k, v) :: rest else (k2, v2) :: alSet rest k v

/-- `defaultdict` read of a table: the empty table when absent. -/
def getTable (s : DWStructure) (t : String) : TableInfo :=
  (alGet s t).getD ⟨[], []⟩

/-- `set.add`: append when not already present. -/
def setAdd (ts : List String) (x : String) : List String :=
  if ts.contains x then ts else ts ++ [x]

/-- `defaultdict(set)` column update: `columns[c].add(ty)`. -/
def colAdd (cols : List (String × TypeSet)) (c ty : String) : List (String × TypeSet) :=
  alSet cols c (setAdd ((alGet cols c).getD []) ty)

/-- `structure["tables"][t]["columns"][c].add(ty)` (creating table and
column entries as `defaultdict` does). -/
def addColumnType (s : DWStructure) (t c ty : String) : DWStructure :=
  let info := getTable s t
  alSet s t { info with columns := colAdd info.columns c ty }

/-- `structure["tables"][t]["relationships"].add(r)`. -/
def addRelationship (s : DWStructure) (t r : String) : DWStructure :=
  let info := getTable s t
  alSet s t { info with relationships := setAdd info.relationships r }

/-- The observed type-set of a column (empty when table or column is
absent). -/
def colTypes (s : DWStructure) (t c : String) : TypeSet :=
  (alGet (getTable s t).columns c).getD []

/-- Whether the model has a table of the given name. -/
def hasTable (s : DWStructure) (t : String) : Bool :=
  (alGet s t).isSome

/-- Whether the model has a column of the given name on the given table. -/
def hasColumn (s : DWStructure) (t c : String) : Bool :=
  (alGet (getTable s t).columns c).isSome

/-- The fixed `categories` table assigned by the analyzer on seeing a
`category` field of a `brands` document (`structure["tables"]["categories"]
= {...}`, an overwriting assignment). -/
def categoriesTableInfo : TableInfo :=
  { columns :=
      [("category", ["VARCHAR(255)"]),
       ("categorycode", ["VARCHAR(255)"])],
    relationships := ["one_to_many relationship with brands (category_id)"] }

/-- `DataWarehouseModeler.exception_tables`: the two fixed exception
tables, in source dict order.  Each column's type collection is the
hand-specified singleton set from the source. -/
def exception_tables : List (String × TableInfo) :=
  [("missing_brands",
    { columns :=
        [("missing_brands_id", ["SERIAL PRIMARY KEY"]),
         ("brandcode", ["VARCHAR(255) UNIQUE"]),
         ("occurrence_count", ["INTEGER"]),
         ("first_seen", ["TIMESTAMP"]),
         ("last_seen", ["TIMESTAMP"])],
      relationships := ["tracks missing from relationship with rewardsreceiptitemlist"] }),
   ("missing_users",
    { columns :=
        [("missing_users_id", ["SERIAL PRIMARY KEY"]),
         ("user_id", ["VARCHAR(24) UNIQUE"]),
         ("occurrence_count", ["INTEGER"]),
         ("first_seen", ["TIMESTAMP"]),
         ("last_seen", ["TIMESTAMP"])],
      relationships := ["tracks missing from relationship with receipts"] })]

/-- The names of the exception tables (`table_name in self.exception_tables`
tests key membership). -/
def exceptionTableNames : List String := ["missing_brands", "missing_users"]

mutual

/-- `DataWarehouseModeler._analyze_recursive(item, current_path, structure)`:
non-dict items contribute nothing; a dict determines its owning table
from the path (file stem at the top level) and processes its fields in
order. -/
def analyze_recursive (fileStem : String) : PyVal → String → DWStructure → DWStructure
  | .dict fields, currentPath, s =>
      let tableName := if currentPath = "" then fileStem else splitDotHead currentPath
      analyze_fields fileStem tableName fields s
  | _, _, s => s
termination_by v _ _ => 2 * sizeOf v

/-- The `for key, value in item.items():` loop of `_analyze_recursive`. -/
def analyze_fields (fileStem tableName : String) : List (String × PyVal) → DWStructure → DWStructure
  | [], s => s
  | (k, v) :: rest, s =>
      analyze_fields fileStem tableName rest (analyze_field fileStem tableName k v s)
termination_by fs _ => 2 * sizeOf fs

/-- One iteration of the field loop of `_analyze_recursive`: the
hard-wired special cases (`userid` on `receipts`, `brandcode` on
`rewardsreceiptitemlist`, `category`/`categorycode` on `brands`, `cpg`)
followed by the generic dict/list/scalar handling. -/
def analyze_field (fileStem tableName key : String) (value : PyVal) (s : DWStructure) : DWStructure :=
  let cleanKey := clean_column_name key
  if cleanKey = "userid" ∧ tableName = "receipts" then
    addRelationship
      (addRelationship
        (addColumnType s tableName cleanKey "VARCHAR(24)")
        tableName
        ("foreign key relationship: " ++ tableName ++ "." ++ cleanKey ++ " -> users._id"))
      tableName "tracked by missing_users when not in users table"
  else if cleanKey = "brandcode" ∧ tableName = "rewardsreceiptitemlist" then
    addRelationship
      (addRelationship
        (addColumnType s tableName cleanKey "VARCHAR(255)")
        tableName
        ("foreign key relationship: " ++ tableName ++ "." ++ cleanKey ++ " -> brands.brandcode"))
      tableName "tracked by missing_brands when not in brands table"
  else if cleanKey = "category" ∧ tableName = "brands" then
    addRelationship (alSet s "categories" categoriesTableInfo) tableName
      ("foreign key relationship: " ++ tableName ++ ".category_id -> categories.category_id")
  else if cleanKey = "categorycode" ∧ tableName = "brands" then s
  else if cleanKey = "cpg" then s
  else analyze_field_generic fileStem tableName cleanKey value s
termination_by 2 * sizeOf value + 2

/-- The generic (non-special-cased) tail of the field loop: marker
dicts and scalars become columns, other dicts are recursed into, and a
list whose first element is a dict is sampled at that first element
only. -/
def analyze_field_generic (fileStem tableName cleanKey : String) (value : PyVal)
    (s : DWStructure) : DWStructure :=
  match value with
  | .dict fields =>
      if hasKey fields "$date" || hasKey fields "$oid" then
        addColumnType s tableName cleanKey (infer_data_type (.dict fields) cleanKey)
      else
        -- the source re-tests `clean_key != 'cpg'` here (dead branch:
        -- `cpg` was already skipped in `analyze_field`); kept for faithfulness
        if cleanKey ≠ "cpg" then analyze_recursive fileStem (.dict fields) cleanKey s
        else s
  | .list (PyVal.dict f1 :: _restEls) =>
      let s1 :=
        if cleanKey = "rewardsreceiptitemlist" then
          addRelationship s tableName
            "one_to_many relationship with rewardsreceiptitemlist (receipt_id)"
        else s
      -- only `value[0]` is sampled; the tail is never visited
      analyze_recursive fileStem (.dict f1) cleanKey s1
  | v =>
      addColumnType s tableName cleanKey (infer_data_type v cleanKey)
termination_by 2 * sizeOf value + 1

end

/-- Appends the exception tables to the model
(`structure["tables"][table_name] = table_info` for each). -/
def addExceptionTables (s : DWStructure) : DWStructure :=
  exception_tables.foldl (fun acc ti => alSet acc ti.1 ti.2) s

/-- `DataWarehouseModeler.analyze_structure(data)` together with the
instance flag `exception_tables_added` it reads and writes: given the
flag's value before the call, returns the produced model and the flag's
value after the call. -/
def analyze_structure (fileStem : String) (exceptionTablesAdded : Bool) (data : PyVal) :
    DWStructure × Bool :=
  let s : DWStructure :=
    match data with
    | .list items => items.foldl (fun acc it => analyze_recursive fileStem it "" acc) []
    | d => analyze_recursive fileStem d "" []
  if !exceptionTablesAdded then (addExceptionTables s, true)
  else (s, exceptionTablesAdded)

/-! ## DDL generation (`DataWarehouseModeler.generate_ddl`) -/

/-- The key function of the source's
`max(data_types, key=lambda x: 0 if x == "NULL" else 1)`. -/
def nullKey (x : String) : Nat :=
  if x = "NULL" then 0 else 1

/-- Python `max(iterable, key=nullKey)` over the observed type
collection: the first element (in iteration order) attaining the
maximal key.  The empty case returns `""` where the source would raise
`ValueError`; it is never reached, since every recorded column has at
least one observed type. -/
def pymax : TypeSet → String
  | [] => ""
  | x :: xs => xs.foldl (fun best y => if nullKey best < nullKey y then y else best) x

/-- One column line of a regular (non-exception) table:
`f"{col_name} {data_type}" + (" NULL" if nullable else " NOT NULL")`
with `data_type = max(data_types, key=...)` and
`nullable = "NULL" in data_types`. -/
def renderColumn (col_name : String) (data_types : TypeSet) : String :=
  let data_type := pymax data_types
  let nullable := data_types.contains "NULL"
  col_name ++ " " ++ data_type ++ (if nullable then " NULL" else " NOT NULL")

/-- The DDL statements contributed by one table of the model: the
`CREATE TABLE` statement (predefined column list for exception tables,
synthetic serial primary key plus unified columns otherwise), followed
by the secondary-index statement for an exception table. -/
def renderTableStatements (table_name : String) (info : TableInfo) : List String :=
  let columns : List String :=
    if exceptionTableNames.contains table_name then
      info.columns.map (fun ct => ct.1 ++ " " ++ joinSep " " ct.2)
    else
      (table_name ++ "_id SERIAL PRIMARY KEY")
        :: info.columns.map (fun ct => renderColumn ct.1 ct.2)
  let create_table :=
    "CREATE TABLE " ++ table_name ++ " (\n    " ++ joinSep ",\n    " columns ++ "\n);"
  create_table ::
    (if table_name = "missing_brands" then
       ["CREATE INDEX idx_" ++ table_name ++ "_brandcode ON " ++ table_name ++ "(brandcode);"]
     else if table_name = "missing_users" then
       ["CREATE INDEX idx_" ++ table_name ++ "_user_id ON " ++ table_name ++ "(user_id);"]
     else [])

/-- `DataWarehouseModeler.generate_ddl(structure)`: every statement in
model order, joined by blank lines. -/
def generate_ddl (s : DWStructure) : String :=
  joinSep "\n\n" (s.flatMap (fun ti => renderTableStatements ti.1 ti.2))

/-! ## The load phase (`assets/data_ingestor.py`)

The persistent store is modelled by `DBState`; each parent table is
modelled by the key values present in it (the only reads the cited code
performs are `SELECT _id FROM users WHERE _id = %s` and
`SELECT brandcode FROM brands WHERE brandcode = %s`), child tables by
the ordered list of inserted rows (each row the tuple of bound values,
in the source's column order), and the two exception tables by a
`Ledger`.  `CURRENT_TIMESTAMP` is modelled by a `now : Nat` argument. -/

/-- One row of an exception table, as the upsert leaves it.  `first_seen`
and `last_seen` are `Option` because the generated DDL declares them
`TIMESTAMP` with no default, so a row can hold SQL `NULL` there. -/
structure LedgerEntry where
  occurrence_count : Nat
  first_seen : Option Nat
  last_seen : Option Nat
deriving DecidableEq, Repr

/-- An exception table: dangling key → ledger row, in insertion order. -/
abbrev Ledger := List (PyVal × LedgerEntry)

/-- Row lookup by the unique key column. -/
def ledgerGet : Ledger → PyVal → Option LedgerEntry
  | [], _ => Option.none
  | (k2, e) :: rest, k => if pyBeq k2 k then some e else ledgerGet rest k

/-- In-place row update by key (append when absent). -/
def ledgerSet : Ledger → PyVal → LedgerEntry → Ledger
  | [], k, e => [(k, e)]
  | (k2, e2) :: rest, k, e =>
      if pyBeq k2 k then (k2, e) :: rest else (k2, e2) :: ledgerSet rest k e

/-- The upsert shared by `track_missing_brand` and `track_missing_user`:
`INSERT INTO <table> (<key>, occurrence_count) VALUES (%s, 1)
ON CONFLICT (<key>) DO UPDATE SET occurrence_count = <table>.occurrence_count + 1,
last_seen = CURRENT_TIMESTAMP`.  The insert path sets only the key and
the count; `first_seen`/`last_seen` take their column default from the
generated DDL, which declares no default, hence SQL `NULL`.  The
conflict path increments the count and refreshes `last_seen` to
`CURRENT_TIMESTAMP` (`now`), leaving `first_seen` untouched. -/
def track_missing (ledger : Ledger) (k : PyVal) (now : Nat) : Ledger :=
  match ledgerGet ledger k with
  | Option.none =>
      ledger ++ [(k, { occurrence_count := 1,
                       first_seen := Option.none, last_seen := Option.none })]
  | some e =>
      ledgerSet ledger k
        { e with occurrence_count := e.occurrence_count + 1, last_seen := some now }

/-- The persistent store during a load run. -/
structure DBState where
  users : List PyVal
  brands : List PyVal
  receipts : List (List PyVal)
  receipt_items : List (List PyVal)
  missing_users : Ledger
  missing_brands : Ledger
  next_receipt_id : Int

/-- `SELECT _id FROM users WHERE _id = %s` followed by `fetchone()`. -/
def userExists (db : DBState) (uid : PyVal) : Bool :=
  db.users.any (fun u => pyBeq u uid)

/-- `SELECT brandcode FROM brands WHERE brandcode = %s` followed by
`fetchone()`. -/
def brandExists (db : DBState) (bc : PyVal) : Bool :=
  db.brands.any (fun b => pyBeq b bc)

/-- `DatabaseIngester.track_missing_user(user_id)`. -/
def track_missing_user (db : DBState) (user_id : PyVal) (now : Nat) : DBState :=
  { db with missing_users := track_missing db.missing_users user_id now }

/-- `DatabaseIngester.track_missing_brand(brandcode)`. -/
def track_missing_brand (db : DBState) (brandcode : PyVal) (now : Nat) : DBState :=
  { db with missing_brands := track_missing db.missing_brands brandcode now }

/-- `DatabaseIngester.process_timestamp(value)`: converts
`{'$date': ms}` to a `datetime`.  The `datetime` object is modelled by
its epoch value, an integer stand-in for the source's
`datetime.fromtimestamp(ms / 1000)` (no claim inspects the converted
value); a non-integer `'$date'` payload, where the source would raise,
is passed through unchanged and never arises in the claims. -/
def process_timestamp (value : PyVal) : PyVal :=
  match value with
  | .dict fields =>
      if hasKey fields "$date" then
        match dictGet fields "$date" with
        | .int ms => .timestamp (ms / 1000)
        | _ => .dict fields
      else .dict fields
  | v => v

/-- `DatabaseIngester.process_value(value)`: unwraps `{'$date': ...}` via
`process_timestamp` and `{'$oid': ...}` to its identifier; every other
value passes through. -/
def process_value (value : PyVal) : PyVal :=
  match value with
  | .dict fields =>
      if hasKey fields "$date" then process_timestamp (.dict fields)
      else if hasKey fields "$oid" then dictGet fields "$oid"
      else .dict fields
  | v => v

/-- `DatabaseIngester.insert_receipt_without_items(receipt)`: when the
processed `userId` is truthy but absent from `users`, the miss is
recorded in `missing_users` and the foreign key is set to `None`; the
receipt row is then inserted (bound values in the source's column
order, `userid` last) and its serial id returned. -/
def insert_receipt_without_items (db : DBState) (receipt : PyVal) (now : Nat) :
    DBState × Option Int :=
  let user_id0 := process_value (pyGet receipt "userId")
  let (db1, user_id) :=
    if pyTruthy user_id0 then
      if userExists db user_id0 then (db, user_id0)
      else (track_missing_user db user_id0 now, PyVal.none)
    else (db, user_id0)
  let receipt_values : List PyVal :=
    [process_value (pyGet receipt "_id"),
     pyGet receipt "bonusPointsEarned",
     pyGet receipt "bonusPointsEarnedReason",
     process_value (pyGet receipt "createDate"),
     process_value (pyGet receipt "dateScanned"),
     process_value (pyGet receipt "finishedDate"),
     process_value (pyGet receipt "modifyDate"),
     process_value (pyGet receipt "pointsAwardedDate"),
     pyGet receipt "pointsEarned",
     process_value (pyGet receipt "purchaseDate"),
     pyGet receipt "purchasedItemCount",
     pyGet receipt "rewardsReceiptStatus",
     pyGet receipt "totalSpent",
     user_id]
  ({ db1 with receipts := db1.receipts ++ [receipt_values],
              next_receipt_id := db1.next_receipt_id + 1 },
   some db1.next_receipt_id)

/-- One iteration of the item loop of
`DatabaseIngester.insert_receipt_items`: a truthy `brandCode` absent
from `brands` is recorded in `missing_brands`, and the item row is then
inserted with the original `brandcode` bound (the source binds
`brandcode`, not a nulled copy), `receipt_id` last. -/
def insert_one_receipt_item (db : DBState) (item : PyVal) (receipt_id : Int) (now : Nat) :
    DBState :=
  let brandcode := pyGet item "brandCode"
  let db1 :=
    if pyTruthy brandcode then
      if brandExists db brandcode then db
      else track_missing_brand db brandcode now
    else db
  let item_values : List PyVal :=
    [pyGet item "barcode",
     pyGet item "description",
     pyGet item "finalPrice",
     pyGet item "itemPrice",
     pyGet item "needsFetchReview",
     pyGet item "partnerItemId",
     pyGet item "preventTargetGapPoints",
     pyGet item "quantityPurchased",
     pyGet item "userFlaggedBarcode",
     pyGet item "userFlaggedNewItem",
     pyGet item "userFlaggedPrice",
     pyGet item "userFlaggedQuantity",
     pyGet item "originalMetaBriteBarcode",
     pyGet item "originalMetaBriteDescription",
     pyGet item "pointsNotAwardedReason",
     pyGet item "pointsPayerId",
     pyGet item "rewardsGroup",
     pyGet item "rewardsProductPartnerId",
     brandcode,
     pyGet item "competitorRewardsGroup",
     pyGet item "discountedItemPrice",
     pyGet item "originalReceiptItemText",
     pyGet item "itemNumber",
     pyGet item "needsFetchReviewReason",
     pyGet item "originalMetaBriteQuantityPurchased",
     pyGet item "pointsEarned",
     pyGet item "targetPrice",
     pyGet item "competitiveProduct",
     pyGet item "userFlaggedDescription",
     pyGet item "deleted",
     pyGet item "priceAfterCoupon",
     pyGet item "metabriteCampaignId",
     .int receipt_id]
  { db1 with receipt_items := db1.receipt_items ++ [item_values] }

/-- `DatabaseIngester.insert_receipt_items(receipt, receipt_id)`: the
`for item in receipt.get('rewardsReceiptItemList', [])` loop. -/
def insert_receipt_items (db : DBState) (receipt : PyVal) (receipt_id : Int) (now : Nat) :
    DBState :=
  (pyGetList receipt "rewardsReceiptItemList").foldl
    (fun acc item => insert_one_receipt_item acc item receipt_id now) db

/-! ## Concrete claim inputs -/

/-- The single-document brands population of the spec's scenario:
`[{"_id":{"$oid":"a1"},"brandCode":"X1","category":"SNACK"}]`. -/
def brandsPop : PyVal :=
  .list [.dict [("_id", .dict [("$oid", .str "a1")]),
                ("brandCode", .str "X1"),
                ("category", .str "SNACK")]]

/-- The model inferred from `brandsPop` with file stem `brands` on a fresh
modeler instance. -/
def brandsModel : DWStructure := (analyze_structure "brands" false brandsPop).1

/-- A two-document population in which the second document omits the
field `a` entirely. -/
def omitPop : PyVal := .list [.dict [("a", .int 1)], .dict []]

/-- The model inferred from `omitPop` with file stem `t`. -/
def omitModel : DWStructure := (analyze_structure "t" false omitPop).1

/-- A population whose only field is the dropped linking field `cpg`,
carrying a `$date`-marked mapping. -/
def cpgPop : PyVal := .list [.dict [("cpg", .dict [("$date", .int 0)])]]

/-- The model inferred from `cpgPop` with file stem `receipts`. -/
def cpgModel : DWStructure := (analyze_structure "receipts" false cpgPop).1

/-- An empty persistent store, as created by executing the generated DDL
before any load. -/
def emptyDB : DBState := ⟨[], [], [], [], [], [], 1⟩

/-- A receipt document whose `userId` references a user absent from the
store and whose single line item's `brandCode` references a brand absent
from the store. -/
def danglingReceipt : PyVal :=
  .dict [("_id", .dict [("$oid", .str "r1")]),
         ("userId", .dict [("$oid", .str "u1")]),
         ("rewardsReceiptItemList", .list [.dict [("brandCode", .str "B1")]])]

/-- The model produced by a second `analyze_structure` call on the same
modeler instance (flag already set). -/
def brandsModelSecond : DWStructure := (analyze_structure "brands" true brandsPop).1

/-! ## Evaluation lemmas

The analyzer is defined by well-founded recursion, so concrete runs are
evaluated once here by rewriting with its equations; the claim theorems
below reuse these results. -/

/-- The simp set that evaluates a concrete analyzer run. -/
theorem brandsModel_eval : brandsModel =
    [("brands",
      { columns := [("_id", ["VARCHAR(24)"]), ("brandcode", ["VARCHAR(255)"])],
        relationships := ["foreign key relationship: brands.category_id -> categories.category_id"] }),
     ("categories", categoriesTableInfo),
     ("missing_brands",
      { columns := [("missing_brands_id", ["SERIAL PRIMARY KEY"]),
                    ("brandcode", ["VARCHAR(255) UNIQUE"]),
                    ("occurrence_count", ["INTEGER"]),
                    ("first_seen", ["TIMESTAMP"]),
                    ("last_seen", ["TIMESTAMP"])],
        relationships := ["tracks missing from relationship with rewardsreceiptitemlist"] }),
     ("missing_users",
      { columns := [("missing_users_id", ["SERIAL PRIMARY KEY"]),
                    ("user_id", ["VARCHAR(24) UNIQUE"]),
                    ("occurrence_count", ["INTEGER"]),
                    ("first_seen", ["TIMESTAMP"]),
                    ("last_seen", ["TIMESTAMP"])],
        relationships := ["tracks missing from relationship with receipts"] })] := by
  simp [brandsModel, brandsPop, analyze_structure, analyze_recursive, analyze_fields,
    analyze_field, analyze_field_generic, clean_column_name, pyLower, replaceChar, splitDotHead, infer_data_type,
    hasKey, addColumnType, addRelationship, alSet, alGet, getTable, setAdd, colAdd,
    categoriesTableInfo, exception_tables, addExceptionTables, strContains, chrsContains,
    chrsLe]
  all_goals decide

/-- Second run on the same instance: the exception tables are not added
again. -/
theorem brandsModelSecond_eval : brandsModelSecond =
    [("brands",
      { columns := [("_id", ["VARCHAR(24)"]), ("brandcode", ["VARCHAR(255)"])],
        relationships := ["foreign key relationship: brands.category_id -> categories.category_id"] }),
     ("categories", categoriesTableInfo)] := by
  simp [brandsModelSecond, brandsPop, analyze_structure, analyze_recursive, analyze_fields,
    analyze_field, analyze_field_generic, clean_column_name, pyLower, replaceChar, splitDotHead, infer_data_type,
    hasKey, addColumnType, addRelationship, alSet, alGet, getTable, setAdd, colAdd,
    categoriesTableInfo, strContains, chrsContains, chrsLe]
  all_goals decide

/-- Evaluation of the omitted-field population's model. -/
theorem omitModel_eval : omitModel =
    [("t", { columns := [("a", ["INTEGER"])], relationships := [] }),
     ("missing_brands",
      { columns := [("missing_brands_id", ["SERIAL PRIMARY KEY"]),
                    ("brandcode", ["VARCHAR(255) UNIQUE"]),
                    ("occurrence_count", ["INTEGER"]),
                    ("first_seen", ["TIMESTAMP"]),
                    ("last_seen", ["TIMESTAMP"])],
        relationships := ["tracks missing from relationship with rewardsreceiptitemlist"] }),
     ("missing_users",
      { columns := [("missing_users_id", ["SERIAL PRIMARY KEY"]),
                    ("user_id", ["VARCHAR(24) UNIQUE"]),
                    ("occurrence_count", ["INTEGER"]),
                    ("first_seen", ["TIMESTAMP"]),
                    ("last_seen", ["TIMESTAMP"])],
        relationships := ["tracks missing from relationship with receipts"] })] := by
  simp [omitModel, omitPop, analyze_structure, analyze_recursive, analyze_fields,
    analyze_field, analyze_field_generic, clean_column_name, pyLower, replaceChar, splitDotHead, infer_data_type,
    hasKey, addColumnType, addRelationship, alSet, alGet, getTable, setAdd, colAdd,
    exception_tables, addExceptionTables, strContains, chrsContains, chrsLe]

/-- Evaluation of the `cpg`-only population's model: nothing but the
exception tables. -/
theorem cpgModel_eval : cpgModel = addExceptionTables [] := by
  simp [cpgModel, cpgPop, analyze_structure, analyze_recursive, analyze_fields,
    analyze_field, analyze_field_generic, clean_column_name, pyLower, replaceChar, infer_data_type, hasKey]

/-! ## Claim theorems -/

/-- Claim C9: on the population
`[{"_id":{"$oid":"a1"},"brandCode":"X1","category":"SNACK"}]` analyzed
with file stem `brands`, the inferred model has a `brands` table whose
`brandcode` column's type-set contains `VARCHAR(255)`, a `categories`
table, and the relationship descriptor
`foreign key relationship: brands.category_id -> categories.category_id`
on the `brands` table. -/
theorem claim_C9 :
    hasTable brandsModel "brands" = true ∧
    (colTypes brandsModel "brands" "brandcode").contains "VARCHAR(255)" = true ∧
    hasTable brandsModel "categories" = true ∧
    (getTable brandsModel "brands").relationships.contains
      "foreign key relationship: brands.category_id -> categories.category_id" = true := by
  rw [brandsModel_eval]
  decide

/-- Claim C4, counterexample: `generate_ddl` invoked twice on the same
completed model emits the `CREATE TABLE` statement of each exception
table once per invocation — twice in total — not once in total as the
claim states. -/
theorem claim_C4_counterexample :
    strCount (generate_ddl brandsModel) "CREATE TABLE missing_brands" = 1 ∧
    strCount (generate_ddl brandsModel) "CREATE TABLE missing_users" = 1 ∧
    strCount (generate_ddl brandsModel ++ generate_ddl brandsModel)
      "CREATE TABLE missing_brands" = 2 ∧
    strCount (generate_ddl brandsModel ++ generate_ddl brandsModel)
      "CREATE TABLE missing_users" = 2 := by
  rw [brandsModel_eval]
  decide

/-- Claim C4, amended: the one-shot flag guards analysis, not DDL
generation.  On one modeler instance the exception tables are added to
the produced model by the first `analyze_structure` call only (the
second call's model lacks them), and `generate_ddl` emits the exception
tables of whatever model it is given once per invocation. -/
theorem claim_C4 :
    (analyze_structure "brands" false brandsPop).2 = true ∧
    hasTable brandsModel "missing_brands" = true ∧
    hasTable brandsModel "missing_users" = true ∧
    hasTable brandsModelSecond "missing_brands" = false ∧
    hasTable brandsModelSecond "missing_users" = false ∧
    strCount (generate_ddl brandsModel) "CREATE TABLE missing_brands" = 1 ∧
    strCount (generate_ddl brandsModel) "CREATE TABLE missing_users" = 1 := by
  rw [brandsModel_eval, brandsModelSecond_eval]
  exact ⟨rfl, by decide, by decide, by decide, by decide, by decide, by decide⟩

/-- Claim C2, counterexample: in a population whose second document
omits the field `a` entirely, the observed type-set of column `a` does
not acquire the null-marker and the emitted column is `NOT NULL` —
omission of a field contributes nothing to the model. -/
theorem claim_C2_counterexample :
    colTypes omitModel "t" "a" = ["INTEGER"] ∧
    (colTypes omitModel "t" "a").contains "NULL" = false ∧
    renderColumn "a" (colTypes omitModel "t" "a") = "a INTEGER NOT NULL" := by
  rw [omitModel_eval]
  decide

/-- Claim C6, counterexample: the cleaned column name of `a.b` is `a_b`
(the dot is replaced by an underscore), not `ab` as the claim's
"stripped" reading (`specCleanColumnName`) would give. -/
theorem claim_C6_counterexample :
    clean_column_name "a.b" = "a_b" ∧
    specCleanColumnName "a.b" = "ab" ∧
    clean_column_name "a.b" ≠ specCleanColumnName "a.b" := by
  decide

/-- Claim C8, counterexample: a `$date`-marked mapping under the dropped
linking field `cpg` is not classified and not recorded: no `cpg` column
(and no `receipts` table at all) appears in the model, refuting the
claim's universal quantification over fields. -/
theorem claim_C8_counterexample :
    hasColumn cpgModel "receipts" "cpg" = false ∧
    colTypes cpgModel "receipts" "cpg" = [] ∧
    hasTable cpgModel "receipts" = false := by
  rw [cpgModel_eval]
  decide

/-- Claim C1: evaluation of the ledger upsert at the failing input.  A
first sighting of brand code `B1` at time `5` leaves `first_seen` and
`last_seen` SQL `NULL` (the insert omits them and the generated DDL
declares them with no default — the DDL text contains no `DEFAULT`), and
a second sighting at time `9` yields `occurrence_count = 2`,
`last_seen = 9`, but `first_seen` still `NULL`, contradicting the
claim's `first_seen` = time of the first invocation. -/
theorem claim_C1 :
    track_missing [] (.str "B1") 5
      = [(.str "B1", ⟨1, Option.none, Option.none⟩)] ∧
    ledgerGet (track_missing (track_missing [] (.str "B1") 5) (.str "B1") 9) (.str "B1")
      = some ⟨2, Option.none, some 9⟩ ∧
    strContains (generate_ddl (addExceptionTables [])) "first_seen TIMESTAMP" = true ∧
    strContains (generate_ddl (addExceptionTables [])) "DEFAULT" = false := by
  refine ⟨rfl, rfl, by decide, by decide⟩

/-- A non-null accumulator is never displaced in the source's
`max(..., key=lambda x: 0 if x == "NULL" else 1)` fold: every later
element's key is at most the accumulator's key `1`. -/
theorem pymax_foldl_stable (xs : List String) (best : String) (h : best ≠ "NULL") :
    xs.foldl (fun best y => if nullKey best < nullKey y then y else best) best = best := by
  induction xs with
  | nil => rfl
  | cons y ys ih =>
      have hb : nullKey best = 1 := by simp [nullKey, h]
      have hy : nullKey y ≤ 1 := by unfold nullKey; split <;> simp
      simp only [List.foldl_cons]
      rw [if_neg (by omega)]
      exact ih

/-- Starting from the null-marker, the fold lands on the first non-null
element of the rest when one exists. -/
theorem pymax_foldl_from_null (xs : List String) (h : ∃ t ∈ xs, t ≠ "NULL") :
    (xs.foldl (fun best y => if nullKey best < nullKey y then y else best) "NULL") ∈ xs ∧
    (xs.foldl (fun best y => if nullKey best < nullKey y then y else best) "NULL") ≠ "NULL" := by
  induction xs with
  | nil => obtain ⟨t, ht, _⟩ := h; cases ht
  | cons y ys ih =>
      simp only [List.foldl_cons]
      by_cases hy : y = "NULL"
      · subst hy
        rw [if_neg (by simp [nullKey])]
        obtain ⟨t, ht, hne⟩ := h
        have htys : t ∈ ys := by
          cases ht with
          | head => exact absurd rfl hne
          | tail _ h2 => exact h2
        obtain ⟨hmem, hne2⟩ := ih ⟨t, htys, hne⟩
        exact ⟨List.mem_cons_of_mem _ hmem, hne2⟩
      · rw [if_pos (by simp [nullKey, hy])]
        rw [pymax_foldl_stable ys y hy]
        exact ⟨List.mem_cons_self _ _, hy⟩

/-- Whenever the observed type-set holds a non-null type, the source's
`max` picks an element of the set that is not the null-marker. -/
theorem pymax_mem_ne (l : List String) (h : ∃ t ∈ l, t ≠ "NULL") :
    pymax l ∈ l ∧ pymax l ≠ "NULL" := by
  match l with
  | [] => obtain ⟨t, ht, _⟩ := h; cases ht
  | x :: xs =>
      simp only [pymax]
      by_cases hx : x = "NULL"
      · subst hx
        obtain ⟨hmem, hne⟩ := pymax_foldl_from_null xs (by
          obtain ⟨t, ht, hne⟩ := h
          have : t ∈ xs := by
            cases ht with
            | head => exact absurd rfl hne
            | tail _ h2 => exact h2
          exact ⟨t, this, hne⟩)
        exact ⟨List.mem_cons_of_mem _ hmem, hne⟩
      · rw [pymax_foldl_stable xs x hx]
        exact ⟨List.mem_cons_self _ _, hx⟩

/-- Claim C5: for every column whose observed type-set has a non-null
member, the storage type the generator selects is a member of the set
and is not the null-marker, and the column line carries `NULL` exactly
when the null-marker was observed, `NOT NULL` otherwise. -/
theorem claim_C5 (col : String) (types : TypeSet) (h : ∃ t ∈ types, t ≠ "NULL") :
    pymax types ∈ types ∧ pymax types ≠ "NULL" ∧
    (types.contains "NULL" = true →
      renderColumn col types = col ++ " " ++ pymax types ++ " NULL") ∧
    (types.contains "NULL" = false →
      renderColumn col types = col ++ " " ++ pymax types ++ " NOT NULL") := by
  obtain ⟨hm, hn⟩ := pymax_mem_ne types h
  refine ⟨hm, hn, ?_, ?_⟩ <;> intro hc
  · have hmem : "NULL" ∈ types := by simpa using hc
    simp [renderColumn, hmem]
  · have hmem : "NULL" ∉ types := by simpa using hc
    simp [renderColumn, hmem]

/-- Witness for claim C5 at the concrete set `["NULL", "TEXT"]`: the
selected storage type is `TEXT` (a non-null member) and the rendered
column is nullable. -/
theorem claim_C5_witness :
    (∃ t ∈ ["NULL", "TEXT"], t ≠ "NULL") ∧
    (pymax ["NULL", "TEXT"] ∈ ["NULL", "TEXT"] ∧ pymax ["NULL", "TEXT"] ≠ "NULL" ∧
     ((["NULL", "TEXT"] : TypeSet).contains "NULL" = true →
       renderColumn "c" ["NULL", "TEXT"] = "c" ++ " " ++ pymax ["NULL", "TEXT"] ++ " NULL") ∧
     ((["NULL", "TEXT"] : TypeSet).contains "NULL" = false →
       renderColumn "c" ["NULL", "TEXT"] = "c" ++ " " ++ pymax ["NULL", "TEXT"] ++ " NOT NULL")) :=
  ⟨by decide, claim_C5 "c" ["NULL", "TEXT"] (by decide)⟩

/-- Claim C10: for a string value that reaches the generic branch, the
inferred storage type is decided by the owning column's name: a name
containing `date` gives `TIMESTAMP`; otherwise `price` or `spent` gives
`DECIMAL(10,2)`; otherwise the string's length decides `TEXT` (over 255)
versus `VARCHAR(255)`. -/
theorem claim_C10 (column_name s : String) :
    (strContains (pyLower column_name) "date" = true →
      infer_data_type (.str s) column_name = "TIMESTAMP") ∧
    (strContains (pyLower column_name) "date" = false →
      (strContains (pyLower column_name) "price" = true ∨
       strContains (pyLower column_name) "spent" = true) →
      infer_data_type (.str s) column_name = "DECIMAL(10,2)") ∧
    (strContains (pyLower column_name) "date" = false →
      strContains (pyLower column_name) "price" = false →
      strContains (pyLower column_name) "spent" = false →
      (255 < s.length → infer_data_type (.str s) column_name = "TEXT") ∧
      (s.length ≤ 255 → infer_data_type (.str s) column_name = "VARCHAR(255)")) := by
  refine ⟨?_, ?_, ?_⟩
  · intro h; simp [infer_data_type, h]
  · intro h1 h2
    rcases h2 with h2 | h2 <;> simp [infer_data_type, h1, h2]
  · intro h1 h2 h3
    constructor <;> intro h4
    · simp [infer_data_type, h1, h2, h3, h4]
    · simp [infer_data_type, h1, h2, h3, Nat.not_lt.mpr h4]

/-- Witness for claim C10 at concrete column names: `createDate` is a
timestamp, `finalPrice` a decimal, and `foo` with a short value a
`VARCHAR(255)`. -/
theorem claim_C10_witness :
    infer_data_type (.str "x") "createDate" = "TIMESTAMP" ∧
    infer_data_type (.str "x") "finalPrice" = "DECIMAL(10,2)" ∧
    infer_data_type (.str "x") "foo" = "VARCHAR(255)" :=
  ⟨(claim_C10 "createDate" "x").1 (by decide),
   (claim_C10 "finalPrice" "x").2.1 (by decide) (Or.inl (by decide)),
   ((claim_C10 "foo" "x").2.2 (by decide) (by decide) (by decide)).2 (by decide)⟩

/-- `str.replace('$', '')` on the character level is a filter. -/
theorem flatMap_dollar (l : List Char) :
    (l.flatMap (fun c => if c = '$' then [] else [c])) = l.filter (fun c => c != '$') := by
  induction l with
  | nil => rfl
  | cons c cs ih =>
      by_cases hc : c = '$' <;> simp [hc, ih]

/-- `str.replace('.', '_')` on the character level is a map. -/
theorem flatMap_dot (l : List Char) :
    (l.flatMap (fun c => if c = '.' then ['_'] else [c]))
      = l.map (fun c => if c = '.' then '_' else c) := by
  induction l with
  | nil => rfl
  | cons c cs ih =>
      by_cases hc : c = '.' <;> simp [hc, ih]

/-- Claim C6, amended: the cleaned column name is the raw name with
every `$` removed, every `.` replaced by an underscore, and the result
lower-cased — the dot is substituted, not stripped. -/
theorem claim_C6 (name : String) :
    (clean_column_name name).data
      = (name.data.filter (fun c => c != '$')).map
          (fun c => Char.toLower (if c = '.' then '_' else c)) := by
  show ((name.data.flatMap (fun c => if c = '$' then [] else [c])).flatMap
          (fun c => if c = '.' then ['_'] else [c])).map Char.toLower
        = (name.data.filter (fun c => c != '$')).map
            (fun c => Char.toLower (if c = '.' then '_' else c))
  rw [flatMap_dollar, flatMap_dot, List.map_map]
  rfl

/-- A population with a nested record list whose second element has a
key (`b`) absent from the first element. -/
def itemsPop : PyVal :=
  .list [.dict [("items", .list [.dict [("a", .int 1)], .dict [("b", .int 2)]])]]

/-- The model inferred from `itemsPop` with file stem `orders`. -/
def itemsModel : DWStructure := (analyze_structure "orders" false itemsPop).1

/-- Claim C7: for a list-valued field whose first element is a mapping,
the analyzer's result does not depend on the later elements at all
(analyzing the field with tail `rest` equals analyzing it with the tail
dropped), so a key occurring only in the second or later elements — like
`b` in `itemsPop` — never produces a column in the child table's model. -/
theorem claim_C7 :
    (∀ (fsm tableName key : String) (m1 : List (String × PyVal)) (rest : List PyVal)
       (s : DWStructure),
       analyze_field fsm tableName key (.list (.dict m1 :: rest)) s
         = analyze_field fsm tableName key (.list [.dict m1]) s) ∧
    hasColumn itemsModel "items" "b" = false ∧
    hasColumn itemsModel "items" "a" = true := by
  refine ⟨?_, ?_, ?_⟩
  · intro fsm tableName key m1 rest s
    simp only [analyze_field, analyze_field_generic]
  · simp [itemsModel, itemsPop, analyze_structure, analyze_recursive, analyze_fields,
      analyze_field, analyze_field_generic, clean_column_name, pyLower, replaceChar, splitDotHead, infer_data_type,
      hasKey, addColumnType, addRelationship, alSet, alGet, getTable, setAdd, colAdd,
      exception_tables, addExceptionTables, hasColumn]
  · simp [itemsModel, itemsPop, analyze_structure, analyze_recursive, analyze_fields,
      analyze_field, analyze_field_generic, clean_column_name, pyLower, replaceChar, splitDotHead, infer_data_type,
      hasKey, addColumnType, addRelationship, alSet, alGet, getTable, setAdd, colAdd,
      exception_tables, addExceptionTables, hasColumn]

/-- The hard-wired special cases of the analyzer's field loop: the
parent-user reference on receipts, the parent-brand reference on line
items, the category fields on brands, and the dropped linking field
`cpg`. -/
def isSpecialCased (tableName cleanKey : String) : Bool :=
  (cleanKey == "userid" && tableName == "receipts")
  || (cleanKey == "brandcode" && tableName == "rewardsreceiptitemlist")
  || (cleanKey == "category" && tableName == "brands")
  || (cleanKey == "categorycode" && tableName == "brands")
  || cleanKey == "cpg"

/-- Unpacking of `isSpecialCased tn ck = false` into the five negated
guards of the field loop. -/
theorem notSpecial_parts (tn ck : String) (h : isSpecialCased tn ck = false) :
    ¬(ck = "userid" ∧ tn = "receipts") ∧
    ¬(ck = "brandcode" ∧ tn = "rewardsreceiptitemlist") ∧
    ¬(ck = "category" ∧ tn = "brands") ∧
    ¬(ck = "categorycode" ∧ tn = "brands") ∧
    ¬(ck = "cpg") := by
  refine ⟨?_, ?_, ?_, ?_, ?_⟩
  · rintro ⟨rfl, rfl⟩; simp [isSpecialCased] at h
  · rintro ⟨rfl, rfl⟩; simp [isSpecialCased] at h
  · rintro ⟨rfl, rfl⟩; simp [isSpecialCased] at h
  · rintro ⟨rfl, rfl⟩; simp [isSpecialCased] at h
  · rintro rfl; simp [isSpecialCased] at h

/-- Claim C8, amended: for every field that is not one of the hard-wired
special cases, a mapping value containing the `$date` marker is recorded
as a scalar `TIMESTAMP` column of the owning table, and one containing
`$oid` (without `$date`) as a scalar `VARCHAR(24)` column; in both cases
the analyzer performs exactly the column addition and does not recurse
into the mapping. -/
theorem claim_C8 (fsm tableName key : String) (fields : List (String × PyVal))
    (s : DWStructure)
    (hspec : isSpecialCased tableName (clean_column_name key) = false) :
    (hasKey fields "$date" = true →
      analyze_field fsm tableName key (.dict fields) s
        = addColumnType s tableName (clean_column_name key) "TIMESTAMP") ∧
    (hasKey fields "$date" = false → hasKey fields "$oid" = true →
      analyze_field fsm tableName key (.dict fields) s
        = addColumnType s tableName (clean_column_name key) "VARCHAR(24)") := by
  obtain ⟨h1, h2, h3, h4, h5⟩ := notSpecial_parts tableName (clean_column_name key) hspec
  constructor
  · intro hdate
    simp only [analyze_field, if_neg h1, if_neg h2, if_neg h3, if_neg h4, if_neg h5]
    simp [analyze_field_generic, hdate, infer_data_type]
  · intro hdate hoid
    simp only [analyze_field, if_neg h1, if_neg h2, if_neg h3, if_neg h4, if_neg h5]
    simp [analyze_field_generic, hdate, hoid, infer_data_type]

/-- Witness for claim C8: a `$date`-marked field `createdDate` on the
`users` table becomes a `TIMESTAMP` column, and an `$oid`-marked field
`_id` becomes a `VARCHAR(24)` column. -/
theorem claim_C8_witness :
    isSpecialCased "users" (clean_column_name "createdDate") = false ∧
    hasKey [("$date", PyVal.int 0)] "$date" = true ∧
    analyze_field "users" "users" "createdDate" (.dict [("$date", PyVal.int 0)]) []
      = addColumnType [] "users" (clean_column_name "createdDate") "TIMESTAMP" ∧
    hasKey [("$oid", PyVal.str "a1")] "$date" = false ∧
    hasKey [("$oid", PyVal.str "a1")] "$oid" = true ∧
    analyze_field "users" "users" "_id" (.dict [("$oid", PyVal.str "a1")]) []
      = addColumnType [] "users" (clean_column_name "_id") "VARCHAR(24)" :=
  ⟨by decide, by decide,
   (claim_C8 "users" "users" "createdDate" [("$date", PyVal.int 0)] [] (by decide)).1
     (by decide),
   by decide, by decide,
   (claim_C8 "users" "users" "_id" [("$oid", PyVal.str "a1")] [] (by decide)).2
     (by decide) (by decide)⟩

/-- Claim C3, counterexample: loading the line item of `danglingReceipt`
against an empty store records the missing brand `B1` in the ledger and
inserts the item — but the inserted row carries the original
`brandcode` value `B1` (position 18 of the bound values), not `NULL` as
the claim states. -/
theorem claim_C3_counterexample :
    (insert_receipt_items emptyDB danglingReceipt 1 4).receipt_items.length = 1 ∧
    (insert_receipt_items emptyDB danglingReceipt 1 4).receipt_items.headI.get? 18
      = some (PyVal.str "B1") ∧
    some (PyVal.str "B1") ≠ some PyVal.none ∧
    ledgerGet (insert_receipt_items emptyDB danglingReceipt 1 4).missing_brands (.str "B1")
      = some ⟨1, Option.none, Option.none⟩ := by
  refine ⟨rfl, rfl, by simp, rfl⟩

/-- Claim C3, amended: a child record with a dangling parent reference
is still inserted and the ledger is upserted for the missing key, and
the load of the record does not fail; for a receipt with an unknown user
the `userid` foreign key (the last bound value) is nulled, but for a
receipt line item with an unknown brand the `brandcode` (bound value 18)
is inserted unchanged (not nulled). -/
theorem claim_C3 (db : DBState) (rfields ifields : List (String × PyVal)) (u b : String)
    (hu : dictGet rfields "userId" = PyVal.dict [("$oid", PyVal.str u)])
    (hu0 : u ≠ "")
    (hunotin : userExists db (PyVal.str u) = false)
    (hb : dictGet ifields "brandCode" = PyVal.str b)
    (hb0 : b ≠ "")
    (hbnotin : brandExists db (PyVal.str b) = false)
    (rid : Int) (now now2 : Nat) :
    ((insert_receipt_without_items db (.dict rfields) now).2 = some db.next_receipt_id ∧
     (insert_receipt_without_items db (.dict rfields) now).1.receipts
       = db.receipts ++
           [[process_value (dictGet rfields "_id"),
             dictGet rfields "bonusPointsEarned",
             dictGet rfields "bonusPointsEarnedReason",
             process_value (dictGet rfields "createDate"),
             process_value (dictGet rfields "dateScanned"),
             process_value (dictGet rfields "finishedDate"),
             process_value (dictGet rfields "modifyDate"),
             process_value (dictGet rfields "pointsAwardedDate"),
             dictGet rfields "pointsEarned",
             process_value (dictGet rfields "purchaseDate"),
             dictGet rfields "purchasedItemCount",
             dictGet rfields "rewardsReceiptStatus",
             dictGet rfields "totalSpent",
             PyVal.none]] ∧
     (insert_receipt_without_items db (.dict rfields) now).1.missing_users
       = track_missing db.missing_users (PyVal.str u) now) ∧
    ((insert_one_receipt_item db (.dict ifields) rid now2).receipt_items
       = db.receipt_items ++
           [[dictGet ifields "barcode",
             dictGet ifields "description",
             dictGet ifields "finalPrice",
             dictGet ifields "itemPrice",
             dictGet ifields "needsFetchReview",
             dictGet ifields "partnerItemId",
             dictGet ifields "preventTargetGapPoints",
             dictGet ifields "quantityPurchased",
             dictGet ifields "userFlaggedBarcode",
             dictGet ifields "userFlaggedNewItem",
             dictGet ifields "userFlaggedPrice",
             dictGet ifields "userFlaggedQuantity",
             dictGet ifields "originalMetaBriteBarcode",
             dictGet ifields "originalMetaBriteDescription",
             dictGet ifields "pointsNotAwardedReason",
             dictGet ifields "pointsPayerId",
             dictGet ifields "rewardsGroup",
             dictGet ifields "rewardsProductPartnerId",
             PyVal.str b,
             dictGet ifields "competitorRewardsGroup",
             dictGet ifields "discountedItemPrice",
             dictGet ifields "originalReceiptItemText",
             dictGet ifields "itemNumber",
             dictGet ifields "needsFetchReviewReason",
             dictGet ifields "originalMetaBriteQuantityPurchased",
             dictGet ifields "pointsEarned",
             dictGet ifields "targetPrice",
             dictGet ifields "competitiveProduct",
             dictGet ifields "userFlaggedDescription",
             dictGet ifields "deleted",
             dictGet ifields "priceAfterCoupon",
             dictGet ifields "metabriteCampaignId",
             PyVal.int rid]] ∧
     (insert_one_receipt_item db (.dict ifields) rid now2).missing_brands
       = track_missing db.missing_brands (PyVal.str b) now2) := by
  have hpv : process_value (PyVal.dict [("$oid", PyVal.str u)]) = PyVal.str u := by
    simp [process_value, hasKey, dictGet]
  have ht : pyTruthy (PyVal.str u) = true := by simp [pyTruthy, hu0]
  have htb : pyTruthy (PyVal.str b) = true := by simp [pyTruthy, hb0]
  constructor
  · simp [insert_receipt_without_items, pyGet, hu, hpv, ht, hunotin, track_missing_user]
  · simp [insert_one_receipt_item, pyGet, hb, htb, hbnotin, track_missing_brand]

/-- The receipt and item field dicts for the claim C3 witness. -/
def c3rfields : List (String × PyVal) := [("userId", PyVal.dict [("$oid", PyVal.str "u1")])]

/-- The line-item field dict for the claim C3 witness. -/
def c3ifields : List (String × PyVal) := [("brandCode", PyVal.str "B1")]

/-- Witness for claim C3: one receipt with unknown user `u1` and one
line item with unknown brand `B1`, loaded against the empty store. -/
theorem claim_C3_witness :
    dictGet c3rfields "userId" = PyVal.dict [("$oid", PyVal.str "u1")] ∧
    ("u1" : String) ≠ "" ∧
    userExists emptyDB (PyVal.str "u1") = false ∧
    dictGet c3ifields "brandCode" = PyVal.str "B1" ∧
    ("B1" : String) ≠ "" ∧
    brandExists emptyDB (PyVal.str "B1") = false ∧
    (((insert_receipt_without_items emptyDB (.dict c3rfields) 3).2
        = some emptyDB.next_receipt_id ∧
      (insert_receipt_without_items emptyDB (.dict c3rfields) 3).1.receipts
        = emptyDB.receipts ++
            [[process_value (dictGet c3rfields "_id"),
              dictGet c3rfields "bonusPointsEarned",
              dictGet c3rfields "bonusPointsEarnedReason",
              process_value (dictGet c3rfields "createDate"),
              process_value (dictGet c3rfields "dateScanned"),
              process_value (dictGet c3rfields "finishedDate"),
              process_value (dictGet c3rfields "modifyDate"),
              process_value (dictGet c3rfields "pointsAwardedDate"),
              dictGet c3rfields "pointsEarned",
              process_value (dictGet c3rfields "purchaseDate"),
              dictGet c3rfields "purchasedItemCount",
              dictGet c3rfields "rewardsReceiptStatus",
              dictGet c3rfields "totalSpent",
              PyVal.none]] ∧
      (insert_receipt_without_items emptyDB (.dict c3rfields) 3).1.missing_users
        = track_missing emptyDB.missing_users (PyVal.str "u1") 3) ∧
     ((insert_one_receipt_item emptyDB (.dict c3ifields) 1 4).receipt_items
        = emptyDB.receipt_items ++
            [[dictGet c3ifields "barcode",
              dictGet c3ifields "description",
              dictGet c3ifields "finalPrice",
              dictGet c3ifields "itemPrice",
              dictGet c3ifields "needsFetchReview",
              dictGet c3ifields "partnerItemId",
              dictGet c3ifields "preventTargetGapPoints",
              dictGet c3ifields "quantityPurchased",
              dictGet c3ifields "userFlaggedBarcode",
              dictGet c3ifields "userFlaggedNewItem",
              dictGet c3ifields "userFlaggedPrice",
              dictGet c3ifields "userFlaggedQuantity",
              dictGet c3ifields "originalMetaBriteBarcode",
              dictGet c3ifields "originalMetaBriteDescription",
              dictGet c3ifields "pointsNotAwardedReason",
              dictGet c3ifields "pointsPayerId",
              dictGet c3ifields "rewardsGroup",
              dictGet c3ifields "rewardsProductPartnerId",
              PyVal.str "B1",
              dictGet c3ifields "competitorRewardsGroup",
              dictGet c3ifields "discountedItemPrice",
              dictGet c3ifields "originalReceiptItemText",
              dictGet c3ifields "itemNumber",
              dictGet c3ifields "needsFetchReviewReason",
              dictGet c3ifields "originalMetaBriteQuantityPurchased",
              dictGet c3ifields "pointsEarned",
              dictGet c3ifields "targetPrice",
              dictGet c3ifields "competitiveProduct",
              dictGet c3ifields "userFlaggedDescription",
              dictGet c3ifields "deleted",
              dictGet c3ifields "priceAfterCoupon",
              dictGet c3ifields "metabriteCampaignId",
              PyVal.int 1]] ∧
      (insert_one_receipt_item emptyDB (.dict c3ifields) 1 4).missing_brands
        = track_missing emptyDB.missing_brands (PyVal.str "B1") 4)) :=
  ⟨rfl, by decide, rfl, rfl, by decide, rfl,
   claim_C3 emptyDB c3rfields c3ifields "u1" "B1" rfl (by decide) rfl rfl (by decide) rfl
     1 3 4⟩

/-! ## Monotonicity of the analyzer

The pieces needed for the corrected nullability claim: once a type is
recorded in a column's observed set, no later analysis step removes it —
except for the wholesale reassignments of the `categories` table (inside
the recursion) and of the two exception tables (in
`analyze_structure`), which are excluded by name. -/

/-- Assignment then lookup at the same key. -/
theorem alGet_alSet_self {α : Type} (l : List (String × α)) (k : String) (v : α) :
    alGet (alSet l k v) k = some v := by
  induction l with
  | nil => simp [alSet, alGet]
  | cons kv rest ih =>
      obtain ⟨k2, v2⟩ := kv
      by_cases hk : k2 = k
      · subst hk; simp [alSet, alGet]
      · simp [alSet, alGet, hk, ih]

/-- Assignment then lookup at a different key. -/
theorem alGet_alSet_ne {α : Type} (l : List (String × α)) (k k2 : String) (v : α)
    (h : k2 ≠ k) : alGet (alSet l k v) k2 = alGet l k2 := by
  induction l with
  | nil => simp [alSet, alGet, Ne.symm h]
  | cons kv rest ih =>
      obtain ⟨k3, v3⟩ := kv
      by_cases hk : k3 = k
      · subst hk; simp [alSet, alGet, Ne.symm h]
      · simp [alSet, alGet, hk, ih]

/-- Reading back a whole-table assignment. -/
theorem getTable_alSet_self (s : DWStructure) (t : String) (info : TableInfo) :
    getTable (alSet s t info) t = info := by
  simp [getTable, alGet_alSet_self]

/-- A whole-table assignment leaves other tables' columns alone. -/
theorem colTypes_alSet_ne (s : DWStructure) (t : String) (info : TableInfo)
    (t2 c2 : String) (h : t2 ≠ t) :
    colTypes (alSet s t info) t2 c2 = colTypes s t2 c2 := by
  simp [colTypes, getTable, alGet_alSet_ne _ _ _ _ h]

/-- `set.add` records its element. -/
theorem setAdd_contains_self (ts : List String) (x : String) :
    (setAdd ts x).contains x = true := by
  unfold setAdd
  split
  · assumption
  · simp

/-- `set.add` keeps existing elements. -/
theorem setAdd_contains_mono (ts : List String) (x y : String)
    (h : ts.contains y = true) : (setAdd ts x).contains y = true := by
  unfold setAdd
  split
  · exact h
  · have hm : y ∈ ts := by simpa using h
    simp [hm]

/-- A column-type addition records the added type. -/
theorem colTypes_addColumnType_self (s : DWStructure) (t c ty : String) :
    (colTypes (addColumnType s t c ty) t c).contains ty = true := by
  unfold addColumnType colTypes colAdd
  rw [getTable_alSet_self]
  simp only [alGet_alSet_self, Option.getD_some]
  exact setAdd_contains_self _ _

/-- A column-type addition never removes any recorded type, on any table
or column. -/
theorem colTypes_addColumnType_mono (s : DWStructure) (t c ty t2 c2 ty2 : String)
    (h : (colTypes s t2 c2).contains ty2 = true) :
    (colTypes (addColumnType s t c ty) t2 c2).contains ty2 = true := by
  by_cases ht : t2 = t
  · subst ht
    unfold addColumnType
    unfold colTypes
    rw [getTable_alSet_self]
    unfold colAdd
    by_cases hc : c2 = c
    · subst hc
      simp only [alGet_alSet_self, Option.getD_some]
      exact setAdd_contains_mono _ _ _ h
    · rw [alGet_alSet_ne _ _ _ _ hc]
      exact h
  · unfold addColumnType
    rw [colTypes_alSet_ne _ _ _ _ _ ht]
    exact h

/-- Adding a relationship never changes any column's type-set. -/
theorem colTypes_addRelationship (s : DWStructure) (t r t2 c2 : String) :
    colTypes (addRelationship s t r) t2 c2 = colTypes s t2 c2 := by
  by_cases ht : t2 = t
  · subst ht
    unfold addRelationship colTypes
    rw [getTable_alSet_self]
  · unfold addRelationship
    exact colTypes_alSet_ne _ _ _ _ _ ht

/-- Every modelled Python value has positive size. -/
theorem pyval_sizeOf_pos (v : PyVal) : 0 < sizeOf v := by
  cases v <;> simp_arith

/-- Every field list has positive size. -/
theorem fields_sizeOf_pos (fs : List (String × PyVal)) : 0 < sizeOf fs := by
  cases fs <;> simp_arith

/-- Monotonicity of the analyzer, by induction on size: a type recorded
for a column of any table other than `categories` (the only table the
recursion reassigns wholesale) survives any further analysis step. -/
theorem analyze_mono (n : Nat) :
    (∀ v : PyVal, sizeOf v ≤ n → ∀ (fsm path : String) (s : DWStructure) (t c ty : String),
       t ≠ "categories" → (colTypes s t c).contains ty = true →
       (colTypes (analyze_recursive fsm v path s) t c).contains ty = true) ∧
    (∀ fs : List (String × PyVal), sizeOf fs ≤ n →
       ∀ (fsm tn : String) (s : DWStructure) (t c ty : String),
       t ≠ "categories" → (colTypes s t c).contains ty = true →
       (colTypes (analyze_fields fsm tn fs s) t c).contains ty = true) ∧
    (∀ v : PyVal, sizeOf v ≤ n → ∀ (fsm tn k : String) (s : DWStructure) (t c ty : String),
       t ≠ "categories" → (colTypes s t c).contains ty = true →
       (colTypes (analyze_field fsm tn k v s) t c).contains ty = true) := by
  induction n with
  | zero =>
      refine ⟨fun v hv => absurd hv (by have := pyval_sizeOf_pos v; omega),
              fun fs hfs => absurd hfs (by have := fields_sizeOf_pos fs; omega),
              fun v hv => absurd hv (by have := pyval_sizeOf_pos v; omega)⟩
  | succ n ih =>
      obtain ⟨ihR, ihF, ihK⟩ := ih
      have hR : ∀ v : PyVal, sizeOf v ≤ n + 1 → ∀ (fsm path : String) (s : DWStructure)
          (t c ty : String), t ≠ "categories" → (colTypes s t c).contains ty = true →
          (colTypes (analyze_recursive fsm v path s) t c).contains ty = true := by
        intro v hv fsm path s t c ty ht hmem
        cases v with
        | dict fields =>
            have hsz : sizeOf fields ≤ n := by simp_arith at hv; omega
            simp only [analyze_recursive]
            exact ihF fields hsz fsm _ s t c ty ht hmem
        | none => simpa only [analyze_recursive] using hmem
        | bool b => simpa only [analyze_recursive] using hmem
        | int i => simpa only [analyze_recursive] using hmem
        | float f => simpa only [analyze_recursive] using hmem
        | str st => simpa only [analyze_recursive] using hmem
        | list l => simpa only [analyze_recursive] using hmem
        | timestamp ts2 => simpa only [analyze_recursive] using hmem
      have hK : ∀ v : PyVal, sizeOf v ≤ n + 1 → ∀ (fsm tn k : String) (s : DWStructure)
          (t c ty : String), t ≠ "categories" → (colTypes s t c).contains ty = true →
          (colTypes (analyze_field fsm tn k v s) t c).contains ty = true := by
        intro v hv fsm tn k s t c ty ht hmem
        simp only [analyze_field]
        split_ifs with h1 h2 h3 h4 h5
        · rw [colTypes_addRelationship, colTypes_addRelationship]
          exact colTypes_addColumnType_mono _ _ _ _ _ _ _ hmem
        · rw [colTypes_addRelationship, colTypes_addRelationship]
          exact colTypes_addColumnType_mono _ _ _ _ _ _ _ hmem
        · rw [colTypes_addRelationship, colTypes_alSet_ne _ _ _ _ _ ht]
          exact hmem
        · exact hmem
        · exact hmem
        · cases v with
          | dict fields =>
              simp only [analyze_field_generic]
              by_cases hmk : (hasKey fields "$date" || hasKey fields "$oid") = true
              · rw [if_pos hmk]
                exact colTypes_addColumnType_mono _ _ _ _ _ _ _ hmem
              · rw [if_neg hmk, if_pos h5]
                exact hR (.dict fields) hv fsm _ s t c ty ht hmem
          | list l =>
              cases l with
              | nil =>
                  simp only [analyze_field_generic]
                  exact colTypes_addColumnType_mono _ _ _ _ _ _ _ hmem
              | cons hd tl =>
                  cases hd with
                  | dict f1 =>
                      simp only [analyze_field_generic]
                      have hsz : sizeOf (PyVal.dict f1) ≤ n + 1 := by
                        simp_arith at hv ⊢; omega
                      by_cases hrl : clean_column_name k = "rewardsreceiptitemlist"
                      · rw [if_pos hrl]
                        refine hR (.dict f1) hsz fsm _ _ t c ty ht ?_
                        rw [colTypes_addRelationship]
                        exact hmem
                      · rw [if_neg hrl]
                        exact hR (.dict f1) hsz fsm _ _ t c ty ht hmem
                  | none =>
                      simp only [analyze_field_generic]
                      exact colTypes_addColumnType_mono _ _ _ _ _ _ _ hmem
                  | bool b =>
                      simp only [analyze_field_generic]
                      exact colTypes_addColumnType_mono _ _ _ _ _ _ _ hmem
                  | int i =>
                      simp only [analyze_field_generic]
                      exact colTypes_addColumnType_mono _ _ _ _ _ _ _ hmem
                  | float f =>
                      simp only [analyze_field_generic]
                      exact colTypes_addColumnType_mono _ _ _ _ _ _ _ hmem
                  | str st =>
                      simp only [analyze_field_generic]
                      exact colTypes_addColumnType_mono _ _ _ _ _ _ _ hmem
                  | list l2 =>
                      simp only [analyze_field_generic]
                      exact colTypes_addColumnType_mono _ _ _ _ _ _ _ hmem
                  | timestamp ts2 =>
                      simp only [analyze_field_generic]
                      exact colTypes_addColumnType_mono _ _ _ _ _ _ _ hmem
          | none =>
              simp only [analyze_field_generic]
              exact colTypes_addColumnType_mono _ _ _ _ _ _ _ hmem
          | bool b =>
              simp only [analyze_field_generic]
              exact colTypes_addColumnType_mono _ _ _ _ _ _ _ hmem
          | int i =>
              simp only [analyze_field_generic]
              exact colTypes_addColumnType_mono _ _ _ _ _ _ _ hmem
          | float f =>
              simp only [analyze_field_generic]
              exact colTypes_addColumnType_mono _ _ _ _ _ _ _ hmem
          | str st =>
              simp only [analyze_field_generic]
              exact colTypes_addColumnType_mono _ _ _ _ _ _ _ hmem
          | timestamp ts2 =>
              simp only [analyze_field_generic]
              exact colTypes_addColumnType_mono _ _ _ _ _ _ _ hmem
      have hF : ∀ fs : List (String × PyVal), sizeOf fs ≤ n + 1 →
          ∀ (fsm tn : String) (s : DWStructure) (t c ty : String),
          t ≠ "categories" → (colTypes s t c).contains ty = true →
          (colTypes (analyze_fields fsm tn fs s) t c).contains ty = true := by
        intro fs hfs fsm tn s t c ty ht hmem
        cases fs with
        | nil => simpa only [analyze_fields] using hmem
        | cons kv rest =>
            obtain ⟨k, v⟩ := kv
            have hszr : sizeOf rest ≤ n := by simp_arith at hfs; omega
            have hszv : sizeOf v ≤ n := by simp_arith at hfs; omega
            simp only [analyze_fields]
            exact ihF rest hszr fsm tn _ t c ty ht
              (ihK v hszv fsm tn k s t c ty ht hmem)
      exact ⟨hR, hF, hK⟩

/-- Monotonicity of one recursive analysis step. -/
theorem analyze_recursive_mono (fsm : String) (v : PyVal) (path : String) (s : DWStructure)
    (t c ty : String) (ht : t ≠ "categories")
    (h : (colTypes s t c).contains ty = true) :
    (colTypes (analyze_recursive fsm v path s) t c).contains ty = true :=
  (analyze_mono (sizeOf v)).1 v le_rfl fsm path s t c ty ht h

/-- Monotonicity of a whole field loop. -/
theorem analyze_fields_mono (fsm tn : String) (fs : List (String × PyVal)) (s : DWStructure)
    (t c ty : String) (ht : t ≠ "categories")
    (h : (colTypes s t c).contains ty = true) :
    (colTypes (analyze_fields fsm tn fs s) t c).contains ty = true :=
  (analyze_mono (sizeOf fs)).2.1 fs le_rfl fsm tn s t c ty ht h

/-- Monotonicity of the per-document fold of `analyze_structure`. -/
theorem foldl_analyze_mono (fsm : String) (docs : List PyVal) (s : DWStructure)
    (t c ty : String) (ht : t ≠ "categories")
    (h : (colTypes s t c).contains ty = true) :
    (colTypes (docs.foldl (fun acc it => analyze_recursive fsm it "" acc) s) t c).contains ty
      = true := by
  induction docs generalizing s with
  | nil => exact h
  | cons d rest ih =>
      simp only [List.foldl_cons]
      exact ih _ (analyze_recursive_mono fsm d "" s t c ty ht h)

/-- The field loop processes a concatenation left part first. -/
theorem analyze_fields_append (fsm tn : String) (a b : List (String × PyVal))
    (s : DWStructure) :
    analyze_fields fsm tn (a ++ b) s = analyze_fields fsm tn b (analyze_fields fsm tn a s) := by
  induction a generalizing s with
  | nil => simp only [List.nil_append, analyze_fields]
  | cons kv rest ih =>
      obtain ⟨k, v⟩ := kv
      simp only [List.cons_append, analyze_fields]
      exact ih _

/-- A field supplying an explicit null that is not special-cased records
exactly the null-marker in its column's type-set. -/
theorem analyze_field_null (fsm tn k : String) (s : DWStructure)
    (hspec : isSpecialCased tn (clean_column_name k) = false) :
    analyze_field fsm tn k PyVal.none s
      = addColumnType s tn (clean_column_name k) "NULL" := by
  obtain ⟨h1, h2, h3, h4, h5⟩ := notSpecial_parts tn (clean_column_name k) hspec
  simp only [analyze_field, if_neg h1, if_neg h2, if_neg h3, if_neg h4, if_neg h5]
  simp [analyze_field_generic, infer_data_type]

/-- Appending the exception tables leaves every other table's columns
unchanged. -/
theorem colTypes_addExceptionTables (s : DWStructure) (t c : String)
    (h1 : t ≠ "missing_brands") (h2 : t ≠ "missing_users") :
    colTypes (addExceptionTables s) t c = colTypes s t c := by
  simp only [addExceptionTables, exception_tables, List.foldl_cons, List.foldl_nil]
  rw [colTypes_alSet_ne _ _ _ _ _ h2, colTypes_alSet_ne _ _ _ _ _ h1]

/-- The model of a population in which one document supplies an explicit
null for the field `k` (surrounded by arbitrary fields `f1`, `f2` and
arbitrary documents `pre`, `post`), analyzed on a fresh modeler
instance. -/
def nullFieldModel (stem k : String) (pre post : List PyVal)
    (f1 f2 : List (String × PyVal)) : DWStructure :=
  (analyze_structure stem false
    (PyVal.list (pre ++ PyVal.dict (f1 ++ (k, PyVal.none) :: f2) :: post))).1

/-- Claim C2, amended: if a contributing document supplies an explicit
null for a field that is not special-cased (and whose owning table is
not one of the wholesale-reassigned tables `categories`,
`missing_brands`, `missing_users`), the null-marker is in the column's
observed type-set and the emitted column carries the `NULL` modifier;
a document that merely omits the field contributes nothing (see the
counterexample). -/
theorem claim_C2 (stem k : String) (pre post : List PyVal) (f1 f2 : List (String × PyVal))
    (h1 : stem ≠ "categories") (h2 : stem ≠ "missing_brands") (h3 : stem ≠ "missing_users")
    (hspec : isSpecialCased stem (clean_column_name k) = false) :
    (colTypes (nullFieldModel stem k pre post f1 f2) stem (clean_column_name k)).contains
      "NULL" = true ∧
    renderColumn (clean_column_name k)
        (colTypes (nullFieldModel stem k pre post f1 f2) stem (clean_column_name k))
      = clean_column_name k ++ " "
          ++ pymax (colTypes (nullFieldModel stem k pre post f1 f2) stem (clean_column_name k))
          ++ " NULL" := by
  have hmain : (colTypes (nullFieldModel stem k pre post f1 f2) stem
      (clean_column_name k)).contains "NULL" = true := by
    unfold nullFieldModel
    simp only [analyze_structure, Bool.not_false, if_true]
    rw [colTypes_addExceptionTables _ _ _ h2 h3]
    rw [List.foldl_append, List.foldl_cons]
    apply foldl_analyze_mono _ post _ _ _ _ h1
    simp only [analyze_recursive, if_true]
    rw [analyze_fields_append]
    simp only [analyze_fields]
    apply analyze_fields_mono _ _ f2 _ _ _ _ h1
    rw [analyze_field_null _ _ _ _ hspec]
    exact colTypes_addColumnType_self _ _ _ _
  refine ⟨hmain, ?_⟩
  have hmem : "NULL" ∈ colTypes (nullFieldModel stem k pre post f1 f2) stem
      (clean_column_name k) := by simpa using hmain
  simp [renderColumn, hmem]

/-- Witness for claim C2 at the single-document population
`[{"a": null}]` with file stem `t`. -/
theorem claim_C2_witness :
    ("t" : String) ≠ "categories" ∧ ("t" : String) ≠ "missing_brands" ∧
    ("t" : String) ≠ "missing_users" ∧
    isSpecialCased "t" (clean_column_name "a") = false ∧
    ((colTypes (nullFieldModel "t" "a" [] [] [] []) "t" (clean_column_name "a")).contains
       "NULL" = true ∧
     renderColumn (clean_column_name "a")
         (colTypes (nullFieldModel "t" "a" [] [] [] []) "t" (clean_column_name "a"))
       = clean_column_name "a" ++ " "
           ++ pymax (colTypes (nullFieldModel "t" "a" [] [] [] []) "t" (clean_column_name "a"))
           ++ " NULL") :=
  ⟨by decide, by decide, by decide, by decide,
   claim_C2 "t" "a" [] [] [] [] (by decide) (by decide) (by decide) (by decide)⟩
